import Mathlib

/-!
Shallow embedding of the Duck Tees storefront backend (`main.py`, `schemas.py`).

The system is a thin orchestration layer over a document store (MongoDB) and
a payment provider (Stripe).  External collaborators are embedded as oracle
parameters: the product store is an optional lookup function (the `db` handle
may be absent), the Stripe client is a function from line items to a result,
and order persistence is a success flag.  Mongo documents are records whose
fields are all optional, mirroring the defensive `.get` access in the code.
-/

namespace DuckTees

/-- `CartItem` request model (main.py lines 31-35): slug, quantity, optional
size and color.  It carries no price field. -/
structure CartItem where
  slug : String
  quantity : Int
  size : Option String := none
  color : Option String := none

/-- A raw product document as read back from the store.  The code accesses
every field through `prod.get(...)`, so each field may be absent. -/
structure ProductDoc where
  title : Option String := none
  description : Option String := none
  price_cents : Option Int := none
  currency : Option String := none
  category : Option String := none
  in_stock : Option Bool := none
  slug : Option String := none
  images : Option (List String) := none
  colors : Option (List String) := none
  sizes : Option (List String) := none
  sku : Option String := none

/-- Store-native document identifier (Mongo ObjectId), an opaque value with a
string rendering (`str(_id)` in the code). -/
structure ObjectId where
  oid : Nat

def ObjectId.toStr (o : ObjectId) : String := toString o.oid

/-- A stored document: the store-native `_id` plus the product fields. -/
structure StoredDoc where
  oid : ObjectId
  doc : ProductDoc

/-- `db["product"].find_one({"slug": slug}) if db else None`: the handle may
be absent (`db is None`), in which case every lookup yields nothing. -/
def storeFind (db : Option (String → Option StoredDoc)) (slug : String) :
    Option StoredDoc :=
  match db with
  | none => none
  | some f => f slug

/-- The product fields of a resolved document (checkout never reads `_id`). -/
def storeLookup (db : Option (String → Option StoredDoc)) (slug : String) :
    Option ProductDoc :=
  (storeFind db slug).map StoredDoc.doc

/-- One element of `order_items` (main.py lines 141-148). -/
structure OrderItem where
  slug : String
  title : Option String
  quantity : Int
  price_cents : Int
  size : Option String
  color : Option String

/-- One Stripe line item (main.py lines 149-159), flattened from the nested
`price_data` / `product_data` dictionaries. -/
structure LineItem where
  quantity : Int
  currency : String
  unit_amount : Int
  name : String
  images : List String

/-- `Order` schema (schemas.py lines 45-51). -/
structure Order where
  email : String
  items : List OrderItem
  amount_total : Int
  currency : String
  stripe_session_id : Option String

/-- FastAPI `HTTPException(status_code=..., detail=...)`. -/
structure HTTPException where
  status_code : Nat
  detail : String

/-- The `order_items.append({...})` record of a resolved cart line
(main.py lines 141-148): catalog title and price, clamped quantity,
client-chosen size/color. -/
def buildOrderItem (item : CartItem) (d : ProductDoc) : OrderItem :=
  { slug := item.slug
    title := d.title
    quantity := max 1 item.quantity
    price_cents := d.price_cents.getD 0
    size := item.size
    color := item.color }

/-- The `line_items.append({...})` record of a resolved cart line
(main.py lines 149-159): clamped quantity, currency defaulting to "eur",
catalog unit price, title defaulting to "Duck Tee", first image at most. -/
def buildLineItem (item : CartItem) (d : ProductDoc) : LineItem :=
  { quantity := max 1 item.quantity
    currency := d.currency.getD "eur"
    unit_amount := d.price_cents.getD 0
    name := d.title.getD "Duck Tee"
    images := (d.images.getD []).take 1 }

/-- The resolution loop of `create_checkout_session` (main.py lines 130-159):
for each cart item, resolve the slug (404 on the first failure), clamp the
quantity to at least 1, accumulate `computed_total`, `order_items` and
`line_items`. -/
def processItems (lookup : String → Option ProductDoc) :
    List CartItem → Except HTTPException (Int × List OrderItem × List LineItem)
  | [] => .ok (0, [], [])
  | item :: rest =>
    match lookup item.slug with
    | none =>
      .error { status_code := 404
               detail := "Product " ++ item.slug ++ " not found" }
    | some d =>
      match processItems lookup rest with
      | .error e => .error e
      | .ok (total, ois, lis) =>
        .ok ((d.price_cents.getD 0) * (max 1 item.quantity) + total,
             buildOrderItem item d :: ois,
             buildLineItem item d :: lis)

/-- The opaque session object returned by `stripe.checkout.Session.create`. -/
structure StripeSession where
  id : String
  url : String

/-- Response body `{"id": session.id, "url": session.url}`. -/
structure CheckoutResponse where
  id : String
  url : String

/-- Observable outcome of one `create_checkout_session` request: the HTTP
result, whether the payment provider was invoked, and the order document
persisted (if any). -/
structure CheckoutEffects where
  result : Except HTTPException CheckoutResponse
  providerCalled : Bool
  storedOrder : Option Order

/-- `create_checkout_session` (main.py lines 122-184).  `stripeConfigured`
models the `STRIPE_SECRET_KEY` check; `stripeCreate` is the provider call
(raising is an `error` result carried into a 500); `persistOk` models
whether `create_document("order", ...)` succeeds — its failure is swallowed
by `except Exception: pass`. -/
def create_checkout_session (stripeConfigured : Bool)
    (db : Option (String → Option StoredDoc))
    (stripeCreate : List LineItem → Except String StripeSession)
    (persistOk : Bool) (items : List CartItem) : CheckoutEffects :=
  if !stripeConfigured then
    { result := .error { status_code := 500, detail := "Stripe not configured" }
      providerCalled := false
      storedOrder := none }
  else if items.isEmpty then
    { result := .error { status_code := 400, detail := "Cart is empty" }
      providerCalled := false
      storedOrder := none }
  else
    match processItems (storeLookup db) items with
    | .error e =>
      { result := .error e, providerCalled := false, storedOrder := none }
    | .ok (total, ois, lis) =>
      match stripeCreate lis with
      | .error msg =>
        { result := .error { status_code := 500, detail := msg }
          providerCalled := true
          storedOrder := none }
      | .ok sess =>
        { result := .ok { id := sess.id, url := sess.url }
          providerCalled := true
          storedOrder :=
            if persistOk then
              some { email := "unknown"
                     items := ois
                     amount_total := total
                     currency := "eur"
                     stripe_session_id := some sess.id }
            else none }

/-- Response of `get_product`: the document with `_id` replaced by its
string rendering under the key `id` (main.py line 118). -/
structure ProductOut where
  id : String
  doc : ProductDoc

/-- `get_product` endpoint (main.py lines 113-119): exact-match lookup by
slug, 404 when absent or the store handle is absent, otherwise the document
with `id := str(_id)`. -/
def get_product (db : Option (String → Option StoredDoc)) (slug : String) :
    Except HTTPException ProductOut :=
  match storeFind db slug with
  | none => .error { status_code := 404, detail := "Product not found" }
  | some sd => .ok { id := sd.oid.toStr, doc := sd.doc }

/-- The provider session object read by `get_session_status`; `amount_total`
and `currency` are nullable on the provider side. -/
structure StripeSessionFull where
  id : String
  payment_status : String
  status : String
  amount_total : Option Int
  currency : Option String

/-- Response body of the session-status endpoint (main.py lines 193-199). -/
structure SessionStatusOut where
  id : String
  payment_status : String
  status : String
  amount_total : Option Int
  currency : Option String

/-- `get_session_status` (main.py lines 187-201): projects the provider's
session object, or surfaces the provider's error message as a 400.  It takes
no store parameter: the code reads and writes no local state. -/
def get_session_status (stripeConfigured : Bool)
    (retrieve : String → Except String StripeSessionFull)
    (session_id : String) : Except HTTPException SessionStatusOut :=
  if !stripeConfigured then
    .error { status_code := 500, detail := "Stripe not configured" }
  else
    match retrieve session_id with
    | .ok s =>
      .ok { id := s.id
            payment_status := s.payment_status
            status := s.status
            amount_total := s.amount_total
            currency := s.currency }
    | .error e => .error { status_code := 400, detail := e }

/-- `Product` schema (schemas.py lines 28-43), with its field defaults. -/
structure Product where
  title : String
  description : Option String := none
  price_cents : Int
  currency : String := "eur"
  category : String := "T-Shirts"
  in_stock : Bool := true
  slug : String
  images : List String := []
  colors : List String := []
  sizes : List String := ["S", "M", "L", "XL"]
  sku : Option String := none

/-- `SEED_PRODUCTS` (main.py lines 44-87): the fixed 3-item demo catalog.
`currency` is not passed in the source, so the schema default "eur" applies. -/
def SEED_PRODUCTS : List Product :=
  [ { title := "Happy Duck Tee"
      description := some "Weiches Bio-T-Shirt mit fröhlicher Enten-Illustration."
      price_cents := 2499
      category := "T-Shirts"
      in_stock := true
      slug := "happy-duck-tee"
      images := ["https://images.unsplash.com/photo-1520975916090-3105956dac38?q=80&w=1200&auto=format&fit=crop"]
      colors := ["Forest Green", "Sky Blue", "Sunshine Yellow"]
      sizes := ["S", "M", "L", "XL"]
      sku := some "DUCK-001" },
    { title := "Skater Duck Tee"
      description := some "Lässige Ente auf dem Skateboard – Style trifft Humor."
      price_cents := 2799
      category := "T-Shirts"
      in_stock := true
      slug := "skater-duck-tee"
      images := ["https://images.unsplash.com/photo-1512436991641-6745cdb1723f?q=80&w=1200&auto=format&fit=crop"]
      colors := ["Charcoal", "Ocean", "Moss"]
      sizes := ["S", "M", "L", "XL"]
      sku := some "DUCK-002" },
    { title := "Explorer Duck Tee"
      description := some "Abenteuerlustige Ente im Natur-Look."
      price_cents := 2999
      category := "T-Shirts"
      in_stock := true
      slug := "explorer-duck-tee"
      images := ["https://images.unsplash.com/photo-1503342452485-86ff0a8befe1?q=80&w=1200&auto=format&fit=crop"]
      colors := ["Leaf", "Stone", "Cloud"]
      sizes := ["S", "M", "L", "XL"]
      sku := some "DUCK-003" } ]

/-- `ensure_seed_products` (main.py lines 90-99): no-op when the handle is
absent; when the product collection counts 0 documents, insert each seed
product.  `create_document` is not under src/; modelled from the spec:
"`create_document(collection_name, record)` inserts a validated record into
the named collection" — embedded as appending to the collection list.
Returns the new collection state and the number of documents inserted. -/
def ensure_seed_products (db : Option (List Product)) :
    Option (List Product) × Nat :=
  match db with
  | none => (none, 0)
  | some coll =>
    if coll.length = 0 then (some (coll ++ SEED_PRODUCTS), SEED_PRODUCTS.length)
    else (some coll, 0)

/-- Observable outcome of one `list_products` call: the collection state
after the call, the number of documents inserted by seeding, and the records
returned. -/
structure ListProductsResult where
  db : Option (List Product)
  inserted : Nat
  products : List Product

/-- `list_products` (main.py lines 102-110): seed if empty, then return all
products.  `get_documents` is not under src/; modelled from the spec:
"`get_documents(collection_name)` returns an unordered sequence of raw
records", degrading to empty results when the store is absent. -/
def list_products (db0 : Option (List Product)) : ListProductsResult :=
  { db := (ensure_seed_products db0).1
    inserted := (ensure_seed_products db0).2
    products := ((ensure_seed_products db0).1).getD [] }

/-! Concrete fixtures used to instantiate the theorems below. -/

/-- A concrete stored product document (price 2499, as in the seed catalog
and the worked example of the spec). -/
def demoDoc : ProductDoc :=
  { title := some "Happy Duck Tee"
    price_cents := some 2499
    currency := some "eur"
    slug := some "happy-duck-tee"
    images := some ["https://img.example/happy.jpg"] }

/-- A stored document lacking the `price_cents` field. -/
def noPriceDoc : ProductDoc :=
  { title := some "Mystery Tee", slug := some "mystery-tee" }

def cartDemo : CartItem := { slug := "happy-duck-tee", quantity := 2 }

def cartBad : CartItem := { slug := "nope", quantity := 1 }

def cartZero : CartItem := { slug := "happy-duck-tee", quantity := 0 }

def cartMystery : CartItem := { slug := "mystery-tee", quantity := 2 }

def demoLookup : String → Option ProductDoc :=
  fun s => if s = "happy-duck-tee" then some demoDoc else none

def mysteryLookup : String → Option ProductDoc :=
  fun s => if s = "mystery-tee" then some noPriceDoc else none

def demoStore : Option (String → Option StoredDoc) :=
  some fun s =>
    if s = "happy-duck-tee" then some { oid := { oid := 1 }, doc := demoDoc }
    else none

def demoSession : StripeSession := { id := "sess_1", url := "https://pay.example/s1" }

def demoStripe : List LineItem → Except String StripeSession :=
  fun _ => .ok demoSession

def demoSessionFull : StripeSessionFull :=
  { id := "cs_1"
    payment_status := "paid"
    status := "complete"
    amount_total := some 4998
    currency := some "eur" }

def demoRetrieve : String → Except String StripeSessionFull :=
  fun _ => .ok demoSessionFull

/-! Helper lemmas about the resolution loop. -/

/-- A map of a list is pointwise related to the list. -/
theorem forall2_map_self {α β : Type} (f : α → β) (R : α → β → Prop)
    (l : List α) (h : ∀ a ∈ l, R a (f a)) : List.Forall₂ R l (l.map f) := by
  induction l with
  | nil => simp
  | cons a t ih =>
    simp only [List.map_cons]
    exact List.Forall₂.cons (h a (List.mem_cons_self a t))
      (ih fun x hx => h x (List.mem_cons_of_mem a hx))

/-- When every slug resolves, the resolution loop succeeds and its three
outputs are the expected closed forms: the total is the sum of catalog price
times clamped quantity over the cart, and the order/line item lists are the
per-item builds over the resolved documents. -/
theorem processItems_resolved (lookup : String → Option ProductDoc)
    (items : List CartItem) (h : ∀ it ∈ items, (lookup it.slug).isSome) :
    processItems lookup items = .ok
      ((items.map fun it =>
          ((lookup it.slug).bind ProductDoc.price_cents).getD 0 *
            max 1 it.quantity).sum,
       items.map fun it => buildOrderItem it ((lookup it.slug).getD {}),
       items.map fun it => buildLineItem it ((lookup it.slug).getD {})) := by
  induction items with
  | nil => simp [processItems]
  | cons it rest ih =>
    obtain ⟨d, hd⟩ :=
      Option.isSome_iff_exists.mp (h it (List.mem_cons_self it rest))
    have hrest : ∀ x ∈ rest, (lookup x.slug).isSome :=
      fun x hx => h x (List.mem_cons_of_mem it hx)
    simp [processItems, hd, ih hrest]

/-- When some slug fails to resolve, the resolution loop fails with a 404
naming an unresolvable slug of the cart. -/
theorem processItems_unresolved (lookup : String → Option ProductDoc)
    (items : List CartItem) (h : ∃ it ∈ items, lookup it.slug = none) :
    ∃ it, it ∈ items ∧ lookup it.slug = none ∧
      processItems lookup items =
        .error { status_code := 404
                 detail := "Product " ++ it.slug ++ " not found" } := by
  induction items with
  | nil =>
    obtain ⟨it, hmem, _⟩ := h
    exact absurd hmem (List.not_mem_nil it)
  | cons a rest ih =>
    cases ha : lookup a.slug with
    | none =>
      exact ⟨a, List.mem_cons_self a rest, ha, by simp [processItems, ha]⟩
    | some d =>
      have hr : ∃ it ∈ rest, lookup it.slug = none := by
        obtain ⟨it, hmem, hn⟩ := h
        rcases List.mem_cons.mp hmem with h1 | h2
        · subst h1
          rw [ha] at hn
          exact absurd hn (by simp)
        · exact ⟨it, h2, hn⟩
      obtain ⟨it, hmem, hn, heq⟩ := ih hr
      exact ⟨it, List.mem_cons_of_mem a hmem, hn, by simp [processItems, ha, heq]⟩

/-- Claim C1: for every non-empty cart whose slugs all resolve, the checkout
orchestrator's `computed_total` (the first component of the resolution loop,
fed unchanged into the order and the provider call) equals the sum over all
cart lines of the catalog `price_cents` for that slug times the clamped
quantity `max 1 quantity`.  The total depends only on the store lookup and
the quantities; `CartItem` carries no price field, so no client-supplied
price can influence it. -/
theorem computed_total_correct (lookup : String → Option ProductDoc)
    (items : List CartItem) (hne : items ≠ [])
    (h : ∀ it ∈ items, (lookup it.slug).isSome) :
    ∃ ois lis, processItems lookup items = .ok
      ((items.map fun it =>
          ((lookup it.slug).bind ProductDoc.price_cents).getD 0 *
            max 1 it.quantity).sum,
       ois, lis) :=
  ⟨_, _, processItems_resolved lookup items h⟩

/-- Witness for C1, the worked example of the spec: one line of
`happy-duck-tee` (catalog price 2499) with quantity 2 yields total 4998. -/
theorem computed_total_correct_witness :
    ∃ ois lis, processItems demoLookup [cartDemo] = .ok (4998, ois, lis) := by
  obtain ⟨ois, lis, heq⟩ := computed_total_correct demoLookup [cartDemo]
    (by simp) (by intro it hit; simp only [List.mem_singleton] at hit;
                  subst hit; simp [cartDemo, demoLookup])
  exact ⟨ois, lis, by rw [heq]; norm_num [cartDemo, demoLookup, demoDoc]⟩

/-- Claim C2: a cart containing an unresolvable slug makes
`create_checkout_session` fail with a 404 whose message names an offending
slug, with the provider never invoked and no order persisted. -/
theorem unresolvable_slug_404 (db : Option (String → Option StoredDoc))
    (sc : List LineItem → Except String StripeSession) (pOk : Bool)
    (items : List CartItem)
    (h : ∃ it ∈ items, storeLookup db it.slug = none) :
    ∃ it, it ∈ items ∧ storeLookup db it.slug = none ∧
      create_checkout_session true db sc pOk items =
        { result := .error { status_code := 404
                             detail := "Product " ++ it.slug ++ " not found" }
          providerCalled := false
          storedOrder := none } := by
  obtain ⟨it, hmem, hn, heq⟩ := processItems_unresolved (storeLookup db) items h
  refine ⟨it, hmem, hn, ?_⟩
  cases items with
  | nil => exact absurd hmem (List.not_mem_nil it)
  | cons a rest => simp [create_checkout_session, heq]

/-- Witness for C2: a cart holding the unknown slug "nope". -/
theorem unresolvable_slug_404_witness :
    ∃ it, it ∈ [cartBad] ∧ storeLookup demoStore it.slug = none ∧
      create_checkout_session true demoStore demoStripe true [cartBad] =
        { result := .error { status_code := 404
                             detail := "Product " ++ it.slug ++ " not found" }
          providerCalled := false
          storedOrder := none } :=
  unresolvable_slug_404 demoStore demoStripe true [cartBad]
    ⟨cartBad, by simp, by simp [cartBad, storeLookup, storeFind, demoStore]⟩

/-- Claim C3: an empty cart always yields a 400 "Cart is empty", with the
provider never invoked and no order persisted, for every store, provider
behaviour and persistence outcome. -/
theorem empty_cart_400 (db : Option (String → Option StoredDoc))
    (sc : List LineItem → Except String StripeSession) (pOk : Bool) :
    create_checkout_session true db sc pOk [] =
      { result := .error { status_code := 400, detail := "Cart is empty" }
        providerCalled := false
        storedOrder := none } := rfl

/-- Claim C4: the resolution loop clamps every quantity to at least 1, in
the total computation as well as in the persisted order items and the
provider line items: the total is the sum of catalog price times the
clamped quantity `max 1 quantity`, the recorded quantities are the clamped
ones, quantities at most 0 become 1 and quantities at least 1 are kept. -/
theorem quantity_clamped (lookup : String → Option ProductDoc)
    (items : List CartItem) (h : ∀ it ∈ items, (lookup it.slug).isSome) :
    ∃ t ois lis, processItems lookup items = .ok (t, ois, lis) ∧
      t = (items.map fun it =>
        ((lookup it.slug).bind ProductDoc.price_cents).getD 0 *
          max 1 it.quantity).sum ∧
      ois.map OrderItem.quantity = items.map (fun it => max 1 it.quantity) ∧
      lis.map LineItem.quantity = items.map (fun it => max 1 it.quantity) ∧
      (∀ q : Int, q ≤ 0 → max 1 q = 1) ∧ (∀ q : Int, 1 ≤ q → max 1 q = q) := by
  refine ⟨_, _, _, processItems_resolved lookup items h, rfl, ?_, ?_, ?_, ?_⟩
  · rw [List.map_map]
    rfl
  · rw [List.map_map]
    rfl
  · intro q hq
    exact max_eq_left (by omega)
  · intro q hq
    exact max_eq_right hq

/-- Witness for C4: a cart with quantities 0 and 2 against the demo store. -/
theorem quantity_clamped_witness :
    ∃ t ois lis, processItems demoLookup [cartZero, cartDemo] = .ok (t, ois, lis) ∧
      t = ([cartZero, cartDemo].map fun it =>
        ((demoLookup it.slug).bind ProductDoc.price_cents).getD 0 *
          max 1 it.quantity).sum ∧
      ois.map OrderItem.quantity =
        [cartZero, cartDemo].map (fun it => max 1 it.quantity) ∧
      lis.map LineItem.quantity =
        [cartZero, cartDemo].map (fun it => max 1 it.quantity) ∧
      (∀ q : Int, q ≤ 0 → max 1 q = 1) ∧ (∀ q : Int, 1 ≤ q → max 1 q = q) :=
  quantity_clamped demoLookup [cartZero, cartDemo]
    (by intro it hit
        rcases List.mem_cons.mp hit with h1 | h2
        · subst h1; simp [cartZero, demoLookup]
        · simp only [List.mem_singleton] at h2
          subst h2; simp [cartDemo, demoLookup])

/-- Claim C5: calling `list_products` on the empty collection performs one
seeding pass inserting the fixed 3-item demo catalog, and a second call on
the resulting non-empty collection performs no further inserts and leaves
the collection unchanged. -/
theorem seeding_idempotent :
    (list_products (some ([] : List Product))).inserted = 3 ∧
    (list_products (some ([] : List Product))).db = some SEED_PRODUCTS ∧
    SEED_PRODUCTS.length = 3 ∧
    (list_products ((list_products (some ([] : List Product))).db)).inserted = 0 ∧
    (list_products ((list_products (some ([] : List Product))).db)).db =
      some SEED_PRODUCTS :=
  ⟨rfl, rfl, rfl, rfl, rfl⟩

/-- Claim C6: once the provider session is created, the endpoint returns the
session id and redirect URL whatever the persistence outcome; when the order
write succeeds, the stored order carries `amount_total = computed_total` and
`stripe_session_id` equal to the session id (with the placeholder email
"unknown" and currency "eur"); when it fails, nothing is stored but the
response is unchanged. -/
theorem persist_best_effort (db : Option (String → Option StoredDoc))
    (sc : List LineItem → Except String StripeSession) (items : List CartItem)
    (t : Int) (ois : List OrderItem) (lis : List LineItem)
    (sess : StripeSession) (hne : items ≠ [])
    (hok : processItems (storeLookup db) items = .ok (t, ois, lis))
    (hs : sc lis = .ok sess) :
    (∀ pOk, (create_checkout_session true db sc pOk items).result =
      .ok { id := sess.id, url := sess.url }) ∧
    (create_checkout_session true db sc true items).storedOrder =
      some { email := "unknown"
             items := ois
             amount_total := t
             currency := "eur"
             stripe_session_id := some sess.id } ∧
    (create_checkout_session true db sc false items).storedOrder = none := by
  cases items with
  | nil => exact absurd rfl hne
  | cons a rest =>
    refine ⟨fun pOk => ?_, ?_, ?_⟩ <;> simp [create_checkout_session, hok, hs]

/-- Witness for C6: the demo cart against the demo store and a provider that
returns session `sess_1`. -/
theorem persist_best_effort_witness :
    (∀ pOk, (create_checkout_session true demoStore demoStripe pOk [cartDemo]).result =
      .ok { id := demoSession.id, url := demoSession.url }) ∧
    (create_checkout_session true demoStore demoStripe true [cartDemo]).storedOrder =
      some { email := "unknown"
             items := [buildOrderItem cartDemo demoDoc]
             amount_total := 4998
             currency := "eur"
             stripe_session_id := some demoSession.id } ∧
    (create_checkout_session true demoStore demoStripe false [cartDemo]).storedOrder =
      none :=
  persist_best_effort demoStore demoStripe [cartDemo] 4998
    [buildOrderItem cartDemo demoDoc] [buildLineItem cartDemo demoDoc]
    demoSession (by simp) rfl rfl

/-- Claim C7: with the provider configured, the session-status endpoint
either returns exactly the five-field projection of the provider's session
object, or fails with a 400 carrying the provider's error message.  The
embedding of `get_session_status` takes no store parameter: the handler
reads and writes no local state. -/
theorem session_status_projection
    (retrieve : String → Except String StripeSessionFull) (sid : String) :
    (∀ s, retrieve sid = .ok s →
      get_session_status true retrieve sid =
        .ok { id := s.id
              payment_status := s.payment_status
              status := s.status
              amount_total := s.amount_total
              currency := s.currency }) ∧
    (∀ m, retrieve sid = .error m →
      get_session_status true retrieve sid =
        .error { status_code := 400, detail := m }) := by
  constructor
  · intro s hs
    simp [get_session_status, hs]
  · intro m hm
    simp [get_session_status, hm]

/-- Witness for C7: a provider returning a concrete paid session. -/
theorem session_status_projection_witness :
    get_session_status true demoRetrieve "cs_1" =
      .ok { id := demoSessionFull.id
            payment_status := demoSessionFull.payment_status
            status := demoSessionFull.status
            amount_total := demoSessionFull.amount_total
            currency := demoSessionFull.currency } :=
  (session_status_projection demoRetrieve "cs_1").1 demoSessionFull rfl

/-- Claim C8: `get_product` fails with 404 "Product not found" exactly when
the slug does not resolve (in particular whenever the store handle is
absent); on a hit it returns the document with its identifier field set to
the string rendering of the store-native `_id`. -/
theorem get_product_spec (db : Option (String → Option StoredDoc))
    (slug : String) :
    (get_product db slug =
        .error { status_code := 404, detail := "Product not found" } ↔
      storeFind db slug = none) ∧
    (db = none → get_product db slug =
      .error { status_code := 404, detail := "Product not found" }) ∧
    (∀ sd, storeFind db slug = some sd →
      get_product db slug = .ok { id := sd.oid.toStr, doc := sd.doc }) := by
  refine ⟨⟨?_, ?_⟩, ?_, ?_⟩
  · intro he
    cases hf : storeFind db slug with
    | none => rfl
    | some sd => simp [get_product, hf] at he
  · intro hf
    simp [get_product, hf]
  · intro hdb
    subst hdb
    rfl
  · intro sd hf
    simp [get_product, hf]

/-- Witness for C8: against the demo store, the unknown slug "nope" yields
the 404 and the known slug yields the document with `id = "1"`. -/
theorem get_product_spec_witness :
    get_product demoStore "nope" =
      .error { status_code := 404, detail := "Product not found" } ∧
    get_product demoStore "happy-duck-tee" =
      .ok { id := ObjectId.toStr { oid := 1 }, doc := demoDoc } :=
  ⟨(get_product_spec demoStore "nope").1.mpr rfl,
   (get_product_spec demoStore "happy-duck-tee").2.2
     { oid := { oid := 1 }, doc := demoDoc } rfl⟩

/-- Claim C9: for a cart whose slugs all resolve, the provider line items
are in one-to-one correspondence with the cart lines, each carrying the
product's currency defaulting to "eur", the catalog unit price in cents,
the product's title as the name (defaulting to "Duck Tee"), at most the
first image URL (the empty list when the product has none), and the clamped
quantity. -/
theorem line_item_fields (lookup : String → Option ProductDoc)
    (items : List CartItem) (h : ∀ it ∈ items, (lookup it.slug).isSome) :
    ∃ t ois lis, processItems lookup items = .ok (t, ois, lis) ∧
      List.Forall₂ (fun (it : CartItem) (l : LineItem) =>
        ∃ d, lookup it.slug = some d ∧
          l.currency = d.currency.getD "eur" ∧
          l.unit_amount = d.price_cents.getD 0 ∧
          l.name = d.title.getD "Duck Tee" ∧
          l.images = (d.images.getD []).take 1 ∧
          l.quantity = max 1 it.quantity) items lis := by
  refine ⟨_, _, _, processItems_resolved lookup items h, ?_⟩
  apply forall2_map_self
  intro it hit
  obtain ⟨d, hd⟩ := Option.isSome_iff_exists.mp (h it hit)
  refine ⟨d, hd, ?_, ?_, ?_, ?_, ?_⟩ <;> simp [buildLineItem, hd]

/-- Witness for C9: the demo cart against the demo store. -/
theorem line_item_fields_witness :
    ∃ t ois lis, processItems demoLookup [cartDemo] = .ok (t, ois, lis) ∧
      List.Forall₂ (fun (it : CartItem) (l : LineItem) =>
        ∃ d, demoLookup it.slug = some d ∧
          l.currency = d.currency.getD "eur" ∧
          l.unit_amount = d.price_cents.getD 0 ∧
          l.name = d.title.getD "Duck Tee" ∧
          l.images = (d.images.getD []).take 1 ∧
          l.quantity = max 1 it.quantity) [cartDemo] lis :=
  line_item_fields demoLookup [cartDemo]
    (by intro it hit; simp only [List.mem_singleton] at hit;
        subst hit; simp [cartDemo, demoLookup])

/-- Claim C10: a resolved document lacking `price_cents` is priced at 0
rather than failing the request: the loop still succeeds, the total is the
sum of per-line contributions and such a line's contribution is 0, and both
the persisted order line's `price_cents` and the provider line item's
`unit_amount` are 0. -/
theorem missing_price_zero (lookup : String → Option ProductDoc)
    (items : List CartItem) (h : ∀ it ∈ items, (lookup it.slug).isSome) :
    ∃ t ois lis, processItems lookup items = .ok (t, ois, lis) ∧
      t = (items.map fun it =>
        ((lookup it.slug).bind ProductDoc.price_cents).getD 0 *
          max 1 it.quantity).sum ∧
      (∀ it ∈ items, ∀ d, lookup it.slug = some d → d.price_cents = none →
        ((lookup it.slug).bind ProductDoc.price_cents).getD 0 *
          max 1 it.quantity = 0) ∧
      List.Forall₂ (fun (it : CartItem) (o : OrderItem) =>
        ∀ d, lookup it.slug = some d → d.price_cents = none →
          o.price_cents = 0) items ois ∧
      List.Forall₂ (fun (it : CartItem) (l : LineItem) =>
        ∀ d, lookup it.slug = some d → d.price_cents = none →
          l.unit_amount = 0) items lis := by
  refine ⟨_, _, _, processItems_resolved lookup items h, rfl, ?_, ?_, ?_⟩
  · intro it hit d hd hp
    simp [hd, hp]
  · apply forall2_map_self
    intro it hit d hd hp
    simp [buildOrderItem, hd, hp]
  · apply forall2_map_self
    intro it hit d hd hp
    simp [buildLineItem, hd, hp]

/-- Witness for C10: a cart holding the priceless "mystery-tee" document. -/
theorem missing_price_zero_witness :
    ∃ t ois lis, processItems mysteryLookup [cartMystery] = .ok (t, ois, lis) ∧
      t = ([cartMystery].map fun it =>
        ((mysteryLookup it.slug).bind ProductDoc.price_cents).getD 0 *
          max 1 it.quantity).sum ∧
      (∀ it ∈ [cartMystery], ∀ d, mysteryLookup it.slug = some d →
        d.price_cents = none →
        ((mysteryLookup it.slug).bind ProductDoc.price_cents).getD 0 *
          max 1 it.quantity = 0) ∧
      List.Forall₂ (fun (it : CartItem) (o : OrderItem) =>
        ∀ d, mysteryLookup it.slug = some d → d.price_cents = none →
          o.price_cents = 0) [cartMystery] ois ∧
      List.Forall₂ (fun (it : CartItem) (l : LineItem) =>
        ∀ d, mysteryLookup it.slug = some d → d.price_cents = none →
          l.unit_amount = 0) [cartMystery] lis :=
  missing_price_zero mysteryLookup [cartMystery]
    (by intro it hit; simp only [List.mem_singleton] at hit;
        subst hit; simp [cartMystery, mysteryLookup])

end DuckTees
